import Mathlib

/-
Shallow embedding of the rotating-client pool in src/chatbot.py.

Modelling conventions:
* `time.time()` readings are supplied as explicit `Int` inputs (one reading per
  lock-protected section; the readings the code takes inside one critical
  section are microseconds apart and are modelled as a single value).
* The OpenAI client objects are opaque; each is identified by the `Nat` index
  it received at construction, and equality of clients is identity of that id,
  matching Python object identity for the distinct `OpenAI(...)` instances.
* The upstream transport is an oracle: each loop iteration of `call` consumes
  one `AttemptEnv` giving the classification of the outcome of that attempt
  (success / RateLimitError / APIStatusError / APIError / unknown Exception),
  together with the wall-clock readings that iteration observes.
* Fallible Python code (the `IndexError` that `self.api_states[self._current_api_index]`
  can raise, the `ValueError` that `int(retry_after)` can raise) is modelled
  with `Except PyErr`.
* Python dict access `api_info.get("cooldown_until", default)` becomes
  `Option.getD`; the key is absent (`none`) until the RateLimitError handler
  stores it, and no code path ever deletes it.
-/

/-- Exceptions that the modelled code paths of src/chatbot.py can raise. -/
inductive PyErr where
  | indexError
  | valueError
  deriving DecidableEq, Repr

/-- One entry of `self.api_states` (the dict built at src/chatbot.py:60-68).
`client` is the identity of the `OpenAI` instance; `cooldown_until` is the
optional dict key written only by the RateLimitError handler. -/
structure ApiState where
  is_available : Bool
  last_failure_time : Int
  cooldown_until : Option Int
  client : Nat
  model_name : Option String
  name : String
  deriving DecidableEq, Repr

/-- The mutable state of a `Chatbot` instance (src/chatbot.py:16-22):
the target list, the rotation cursor, the pool-wide default cooldown (300)
and the attempt budget (5). -/
structure Chatbot where
  api_states : List ApiState
  current_api_index : Nat
  cooldown_period : Int
  max_attempts_per_prompt : Nat
  deriving DecidableEq, Repr

/-- The per-model YAML configuration record consumed by `_initialize_clients`
(src/chatbot.py:43-45).  A missing key is `none`; `api_keys` defaults to `[]`
when missing, exactly as `llm_config_dict.get("api_keys", [])` does.
`temperature` and `max_tokens` (lines 49-50) are floats read into instance
attributes; they never influence `api_states` and are not modelled. -/
structure LLMConfigDict where
  base_url : Option String
  model : Option String
  api_keys : List String
  deriving DecidableEq, Repr

/-- Python `str(x)` for an `Optional[str]` value: `None` prints as "None". -/
def pyStr : Option String → String
  | none => "None"
  | some s => s

/-- Python truthiness of an `Optional[str]`: falsy iff missing or empty. -/
def pyFalsyStr : Option String → Bool
  | none => true
  | some s => s == ""

/-- The incomplete-configuration test at src/chatbot.py:52:
`if not base_url or not model_name or not api_keys`. -/
def incompleteConfig (cfg : LLMConfigDict) : Bool :=
  pyFalsyStr cfg.base_url || pyFalsyStr cfg.model || cfg.api_keys.isEmpty

/-- `Chatbot._initialize_clients` (src/chatbot.py:37-72) restricted to its
effect on `api_states`.  The incomplete-configuration check at line 52 only
logs a warning and falls through to the `for` loop at line 57, and
`OpenAI(base_url=..., api_key=...)` performs no I/O and does not raise when
given a string api key (even with `base_url=None`), so the `except` at
line 69 is dead here and one state is appended per configured key. -/
def initializeClients (model : String) (cfg : LLMConfigDict) : List ApiState :=
  (List.range cfg.api_keys.length).map (fun i =>
    { is_available := true
      last_failure_time := 0
      cooldown_until := none
      client := i
      model_name := cfg.model
      name := model ++ "-" ++ toString i ++ "@" ++ pyStr cfg.base_url })

/-- Removal of leading whitespace characters from a character list. -/
def stripLeading : List Char → List Char
  | [] => []
  | c :: cs => if c.isWhitespace then stripLeading cs else c :: cs

/-- Python `s.strip()`: the string with leading and trailing whitespace
removed (ASCII whitespace; no claim involves exotic Unicode spaces). -/
def pyStrip (s : String) : String :=
  String.mk (stripLeading (stripLeading s.data.reverse).reverse)

/-- Digit-string evaluation used by `pyInt`: `some` of the value when the
character list is a nonempty run of decimal digits, else `none`. -/
def pyIntDigits (cs : List Char) : Option Nat :=
  if cs.isEmpty then none
  else if cs.all Char.isDigit then
    some (cs.foldl (fun n c => n * 10 + (c.toNat - 48)) 0)
  else none

/-- Python `int(s)` on a string: surrounding whitespace is ignored, an
optional sign prefixes a nonempty run of decimal digits; anything else
raises `ValueError`.  (Exotic forms — underscores, non-ASCII digits — are
rejected here; no claim depends on them.) -/
def pyInt (s : String) : Except PyErr Int :=
  match (pyStrip s).data with
  | '-' :: rest =>
    match pyIntDigits rest with
    | some n => .ok (-(n : Int))
    | none => .error .valueError
  | '+' :: rest =>
    match pyIntDigits rest with
    | some n => .ok (n : Int)
    | none => .error .valueError
  | cs =>
    match pyIntDigits cs with
    | some n => .ok (n : Int)
    | none => .error .valueError

/-- The triple `(client, model_name, name)` that
`_get_next_available_client` returns for a selected target. -/
structure Selected where
  client : Nat
  model_name : Option String
  name : String
  deriving DecidableEq, Repr

/-- The `for _ in range(num_apis)` scan of `_get_next_available_client`
(src/chatbot.py:83-105).  The fuel argument counts the remaining scan steps.
Each step reads `self.api_states[self._current_api_index]` (an out-of-range
cursor raises `IndexError`), flips an unavailable target back to available
when `now - last_failure_time > get("cooldown_until", cooldown_period)`
(lines 86-94; note the key is read, never cleared), returns the target when
it is (now) available after advancing the cursor modulo `num_apis`, and
otherwise advances the cursor and continues. -/
def selectScan (now : Int) (num_apis : Nat) : Nat → Chatbot → Except PyErr (Option Selected × Chatbot)
  | 0, cb => .ok (none, cb)
  | k + 1, cb =>
    match cb.api_states[cb.current_api_index]? with
    | none => .error .indexError
    | some api_info =>
      if api_info.is_available = false ∧
          now - api_info.last_failure_time > api_info.cooldown_until.getD cb.cooldown_period then
        let api_info2 : ApiState := { api_info with is_available := true, last_failure_time := 0 }
        .ok (some ⟨api_info2.client, api_info2.model_name, api_info2.name⟩,
          { cb with
            api_states := cb.api_states.set cb.current_api_index api_info2
            current_api_index := (cb.current_api_index + 1) % num_apis })
      else if api_info.is_available then
        .ok (some ⟨api_info.client, api_info.model_name, api_info.name⟩,
          { cb with current_api_index := (cb.current_api_index + 1) % num_apis })
      else
        selectScan now num_apis k
          { cb with current_api_index := (cb.current_api_index + 1) % num_apis }

/-- `Chatbot._get_next_available_client` (src/chatbot.py:74-105): empty pool
returns `(None, None, None)` untouched, otherwise one full scan of at most
`num_apis` steps. -/
def getNextAvailableClient (now : Int) (cb : Chatbot) : Except PyErr (Option Selected × Chatbot) :=
  let num_apis := cb.api_states.length
  if num_apis = 0 then .ok (none, cb)
  else selectScan now num_apis num_apis cb

/-- Repeated invocation of `_get_next_available_client`, collecting the
returned triples in order (used to state rotation properties).  A raised
exception ends the sequence. -/
def selectSeq (now : Int) : Nat → Chatbot → List (Option Selected) × Chatbot
  | 0, cb => ([], cb)
  | n + 1, cb =>
    match getNextAvailableClient now cb with
    | .error _ => ([], cb)
    | .ok (r, cb1) =>
      let p := selectSeq now n cb1
      (r :: p.1, p.2)

/-- The delay computation of the RateLimitError handler
(src/chatbot.py:145-150): `int(retry_after) if retry_after else
self.cooldown_period`, where a missing or empty header is falsy. -/
def computeDelay (retry_after : Option String) (cooldown_period : Int) : Except PyErr Int :=
  match retry_after with
  | some s => if s = "" then .ok cooldown_period else pyInt s
  | none => .ok cooldown_period

/-- First-match in-place update of the `for`/`break` loop of the RateLimitError
handler (src/chatbot.py:143-157): the first state whose client matches is marked
unavailable, stamped with the failure time and given the `cooldown_until` key. -/
def rateLimitMark (client : Nat) (delay t : Int) : List ApiState → List ApiState
  | [] => []
  | a :: rest =>
    if a.client = client then
      { a with is_available := false, last_failure_time := t, cooldown_until := some delay } :: rest
    else
      a :: rateLimitMark client delay t rest

/-- The `except RateLimitError` handler (src/chatbot.py:140-157).  The delay
is computed at the first matching state, before any mutation, so `int(...)`
raising `ValueError` leaves the state unchanged and propagates; when no state
matches, nothing happens and nothing is parsed. -/
def handleRateLimit (client : Nat) (retry_after : Option String) (t : Int) (cb : Chatbot) :
    Except PyErr Chatbot :=
  if cb.api_states.any (fun a => a.client == client) then
    match computeDelay retry_after cb.cooldown_period with
    | .error e => .error e
    | .ok delay => .ok { cb with api_states := rateLimitMark client delay t cb.api_states }
  else
    .ok cb

/-- First-match in-place update shared by the `except APIError` and
`except Exception` handlers (src/chatbot.py:171-193): the first state whose
client matches is marked unavailable and stamped with the failure time.
The `cooldown_until` key is left exactly as it was. -/
def markUnavailableList (client : Nat) (t : Int) : List ApiState → List ApiState
  | [] => []
  | a :: rest =>
    if a.client = client then
      { a with is_available := false, last_failure_time := t } :: rest
    else
      a :: markUnavailableList client t rest

/-- The `except APIError` / `except Exception` handlers as a state update. -/
def markUnavailable (client : Nat) (t : Int) (cb : Chatbot) : Chatbot :=
  { cb with api_states := markUnavailableList client t cb.api_states }

/-- The `except APIStatusError` removal (src/chatbot.py:163-166):
`self.api_states = [api for api in self.api_states if api["client"] != client]`. -/
def removeClient (client : Nat) (cb : Chatbot) : Chatbot :=
  { cb with api_states := cb.api_states.filter (fun a => !(a.client == client)) }

/-- The sentinel returned at src/chatbot.py:198 after all attempts fail. -/
def failureSentinel : String := "Error: Could not generate content after multiple attempts."

/-- One message dict of the `messages` list (src/chatbot.py:113-116). -/
structure Message where
  role : String
  content : String
  deriving DecidableEq, Repr

/-- The message-list construction at src/chatbot.py:113-116: the system
message is appended only when `system_prompt` is truthy (nonempty), then the
user message. -/
def buildMessages (prompt system_prompt : String) : List Message :=
  (if system_prompt = "" then [] else [⟨"system", system_prompt⟩]) ++ [⟨"user", prompt⟩]

/-- Classification of one transport invocation, mirroring the `try`/`except`
arms of `Chatbot.call`: success carries `completion.choices[0].message.content`
(which the OpenAI SDK types as `Optional[str]`), RateLimitError carries the
`retry-after` response header. -/
inductive Outcome where
  | success (content : Option String)
  | rateLimit (retry_after : Option String)
  | statusError
  | apiError
  | unknownError
  deriving DecidableEq, Repr

/-- The external observations one loop iteration of `call` makes: the clock
reading inside `_get_next_available_client`, the transport classification,
and the clock reading inside the failure handler. -/
structure AttemptEnv where
  t_select : Int
  outcome : Outcome
  t_fail : Int
  deriving DecidableEq, Repr

/-- Environment used when the supplied trace is shorter than the loop. -/
def defaultEnv : AttemptEnv := ⟨0, Outcome.success none, 0⟩

/-- The environment the current loop iteration observes: the head of the
remaining trace, or the default environment when the trace has run out. -/
def envHead : List AttemptEnv → AttemptEnv
  | [] => defaultEnv
  | e :: _ => e

/-- Which `break` ended the attempt loop: selection returned none
(src/chatbot.py:121-125) or the pool was emptied by a permanent removal
(src/chatbot.py:167-169). -/
inductive BreakKind where
  | noneAvailable
  | poolEmptied
  deriving DecidableEq, Repr

/-- Observable outcome of `Chatbot.call`: the returned value or the exception
that escaped, plus ghost instrumentation — the number of transport
invocations performed, which `break` (if any) ended the loop together with
the loop fuel remaining when it fired, the messages list that was sent, and
the final pool state.  The ghost fields do not feed back into the modelled
control flow. -/
structure CallResult where
  result : Except PyErr String
  invocations : Nat
  breakFuel : Option (BreakKind × Nat)
  sentMessages : List Message := []
  final : Chatbot
  deriving Repr

/-- The `for attempt in range(self.max_attempts_per_prompt)` loop of
`Chatbot.call` (src/chatbot.py:118-198), one constructor case per
source-code branch.  Falling off the loop end returns the sentinel string
(line 198); `success` returns `str(content).strip()` (line 138). -/
def callLoop : List AttemptEnv → Chatbot → Nat → CallResult
  | _, cb, 0 => { result := .ok failureSentinel, invocations := 0, breakFuel := none, final := cb }
  | envs, cb, n + 1 =>
    let env := envHead envs
    match getNextAvailableClient env.t_select cb with
    | .error e => { result := .error e, invocations := 0, breakFuel := none, final := cb }
    | .ok (none, cb1) =>
      { result := .ok failureSentinel, invocations := 0,
        breakFuel := some (BreakKind.noneAvailable, n + 1), final := cb1 }
    | .ok (some sel, cb1) =>
      match env.outcome with
      | .success content =>
        { result := .ok (pyStrip (pyStr content)), invocations := 1, breakFuel := none, final := cb1 }
      | .rateLimit ra =>
        match handleRateLimit sel.client ra env.t_fail cb1 with
        | .error e => { result := .error e, invocations := 1, breakFuel := none, final := cb1 }
        | .ok cb2 =>
          let r := callLoop envs.tail cb2 n
          { r with invocations := r.invocations + 1 }
      | .statusError =>
        let cb2 := removeClient sel.client cb1
        if cb2.api_states = [] then
          { result := .ok failureSentinel, invocations := 1,
            breakFuel := some (BreakKind.poolEmptied, n + 1), final := cb2 }
        else
          let r := callLoop envs.tail cb2 n
          { r with invocations := r.invocations + 1 }
      | .apiError =>
        let r := callLoop envs.tail (markUnavailable sel.client env.t_fail cb1) n
        { r with invocations := r.invocations + 1 }
      | .unknownError =>
        let r := callLoop envs.tail (markUnavailable sel.client env.t_fail cb1) n
        { r with invocations := r.invocations + 1 }

/-- `Chatbot.call` (src/chatbot.py:107-198): build the messages list, then
run the bounded attempt loop against the supplied trace of transport
outcomes and clock readings. -/
def Chatbot.call (cb : Chatbot) (prompt : String) (system_prompt : String)
    (envs : List AttemptEnv) : CallResult :=
  { callLoop envs cb cb.max_attempts_per_prompt with
    sentMessages := buildMessages prompt system_prompt }

/-- The cursor invariant claimed by the spec: the rotation cursor indexes
into the current target list, or the list is empty. -/
def cursorOk (cb : Chatbot) : Prop :=
  cb.current_api_index < cb.api_states.length ∨ cb.api_states = []

/-- A `retry-after` header value on which `int(...)` cannot raise: missing,
empty (both falsy, so never parsed) or a parseable integer literal. -/
def retryAfterParses : Option String → Bool
  | none => true
  | some s =>
    if s = "" then true
    else
      match pyInt s with
      | .ok _ => true
      | .error _ => false

/-- Transport outcomes that exercise neither the permanent-removal path nor
an unparseable `retry-after` header. -/
def Outcome.benign : Outcome → Bool
  | .statusError => false
  | .rateLimit ra => retryAfterParses ra
  | _ => true

/-
Concrete fixtures used by counterexamples and witnesses below.
-/

/-- A fresh available target with client id 0. -/
def tgt0 : ApiState := ⟨true, 0, none, 0, some "m", "a"⟩

/-- A fresh available target with client id 1. -/
def tgt1 : ApiState := ⟨true, 0, none, 1, some "m", "b"⟩

/-- A fresh available target with client id 2. -/
def tgt2 : ApiState := ⟨true, 0, none, 2, some "m", "c"⟩

/-- A two-target pool as constructed, cursor at 0. -/
def poolTwo : Chatbot := ⟨[tgt0, tgt1], 0, 300, 5⟩

/-- The pool state reached from `poolTwo` after one selection (cursor
advanced to 1) and the permanent removal of client 0: one target left but
the cursor equals the new length. -/
def poolTwoAfterRemoval : Chatbot := ⟨[tgt1], 1, 300, 5⟩

/-- C1 counterexample: with two targets and a permanent status error on the
first attempt, `Chatbot.call` does not return a normal string — the next
selection scan indexes past the shrunk list and the `IndexError` escapes to
the caller. -/
theorem call_indexerror_counterexample :
    (Chatbot.call poolTwo "hello" "You are a helpful assistant."
        [⟨0, Outcome.statusError, 0⟩]).result = Except.error PyErr.indexError := rfl

/-- C2 counterexample: a permanent-failure removal leaves the rotation
cursor equal to the new list length on a nonempty list, so the invariant
fails and the very next `_get_next_available_client` raises `IndexError` at
`self.api_states[self._current_api_index]`. -/
theorem cursor_invariant_counterexample :
    getNextAvailableClient 0 poolTwo =
      Except.ok (some ⟨0, some "m", "a"⟩, ⟨[tgt0, tgt1], 1, 300, 5⟩) ∧
    removeClient 0 ⟨[tgt0, tgt1], 1, 300, 5⟩ = poolTwoAfterRemoval ∧
    poolTwoAfterRemoval.api_states.length = 1 ∧
    poolTwoAfterRemoval.current_api_index = 1 ∧
    getNextAvailableClient 0 poolTwoAfterRemoval = Except.error PyErr.indexError :=
  ⟨rfl, rfl, rfl, rfl, rfl⟩

/-- C4 counterexample: a rate-limit failure at time 500 with `retry-after: 10`
stores `cooldown_until = 10`; the target recovers and is selected at time
600; a generic `APIError` at time 1000 marks it unavailable but leaves the
stale `cooldown_until = 10` in place, so the target is selected again at
time 1011 — only 11 seconds after the generic failure, far before the
default 300-second cooldown the claim requires. -/
theorem generic_failure_stale_cooldown_counterexample :
    handleRateLimit 0 (some "10") 500 ⟨[⟨true, 0, none, 0, some "m", "n"⟩], 0, 300, 5⟩ =
      Except.ok ⟨[⟨false, 500, some 10, 0, some "m", "n"⟩], 0, 300, 5⟩ ∧
    getNextAvailableClient 600 ⟨[⟨false, 500, some 10, 0, some "m", "n"⟩], 0, 300, 5⟩ =
      Except.ok (some ⟨0, some "m", "n"⟩, ⟨[⟨true, 0, some 10, 0, some "m", "n"⟩], 0, 300, 5⟩) ∧
    markUnavailable 0 1000 ⟨[⟨true, 0, some 10, 0, some "m", "n"⟩], 0, 300, 5⟩ =
      ⟨[⟨false, 1000, some 10, 0, some "m", "n"⟩], 0, 300, 5⟩ ∧
    getNextAvailableClient 1011 ⟨[⟨false, 1000, some 10, 0, some "m", "n"⟩], 0, 300, 5⟩ =
      Except.ok (some ⟨0, some "m", "n"⟩, ⟨[⟨true, 0, some 10, 0, some "m", "n"⟩], 0, 300, 5⟩) :=
  ⟨rfl, rfl, rfl, rfl⟩

/-- C7 counterexample: a sole target marked unavailable at time 0 with the
default cooldown 300 is still not selectable at time 300, when the elapsed
time equals the cooldown — the code requires strictly greater elapsed time
(`>`), so select-next returns none with the state unchanged; at time 301 the
target is returned. -/
theorem cooldown_boundary_counterexample :
    getNextAvailableClient 300 ⟨[⟨false, 0, none, 0, some "m", "n"⟩], 0, 300, 5⟩ =
      Except.ok (none, ⟨[⟨false, 0, none, 0, some "m", "n"⟩], 0, 300, 5⟩) ∧
    getNextAvailableClient 301 ⟨[⟨false, 0, none, 0, some "m", "n"⟩], 0, 300, 5⟩ =
      Except.ok (some ⟨0, some "m", "n"⟩, ⟨[⟨true, 0, none, 0, some "m", "n"⟩], 0, 300, 5⟩) :=
  ⟨rfl, rfl⟩

/-- C5: a configuration record with `model` and one api key but no
`base_url` is flagged incomplete by the check at src/chatbot.py:52, yet
`_initialize_clients` still appends one entry to `api_states` — the check
only logs "skipping" and does not skip, so the claimed zero-target outcome
does not hold. -/
theorem incomplete_config_still_appends :
    incompleteConfig ⟨none, some "mm", ["k"]⟩ = true ∧
    (initializeClients "gpt" ⟨none, some "mm", ["k"]⟩).length = 1 ∧
    initializeClients "gpt" ⟨none, some "mm", ["k"]⟩ =
      [⟨true, 0, none, 0, some "mm", "gpt-0@None"⟩] :=
  ⟨rfl, rfl, rfl⟩

/-- C8: on an empty pool, `_get_next_available_client` returns the triple
`(None, None, None)` and returns the state — list, cursor and all other
fields — completely unchanged. -/
theorem empty_pool_select_none (cb : Chatbot) (now : Int) (h : cb.api_states = []) :
    getNextAvailableClient now cb = Except.ok (none, cb) := by
  simp [getNextAvailableClient, h]

/-- C8 witness: the empty-pool selection at a concrete pool and time. -/
theorem empty_pool_select_none_witness :
    getNextAvailableClient 42 ⟨[], 3, 300, 5⟩ = Except.ok (none, ⟨[], 3, 300, 5⟩) :=
  empty_pool_select_none ⟨[], 3, 300, 5⟩ 42 rfl

/-- C9: with an empty `system_prompt` the message list of the request holds only
the user message; with any nonempty `system_prompt` (the default included)
the system message is sent first, followed by the user message. -/
theorem system_prompt_message_shape (cb : Chatbot) (p sp : String) (envs : List AttemptEnv) :
    (sp = "" → (Chatbot.call cb p sp envs).sentMessages = [⟨"user", p⟩]) ∧
    (sp ≠ "" → (Chatbot.call cb p sp envs).sentMessages = [⟨"system", sp⟩, ⟨"user", p⟩]) := by
  constructor
  · intro h
    simp [Chatbot.call, buildMessages, h]
  · intro h
    simp [Chatbot.call, buildMessages, h]

/-- C9 witness: the empty and the default system prompt at a concrete pool. -/
theorem system_prompt_message_shape_witness :
    (Chatbot.call poolTwo "hi" "" []).sentMessages = [⟨"user", "hi"⟩] ∧
    (Chatbot.call poolTwo "hi" "You are a helpful assistant." []).sentMessages =
      [⟨"system", "You are a helpful assistant."⟩, ⟨"user", "hi"⟩] :=
  ⟨(system_prompt_message_shape poolTwo "hi" "" []).1 rfl,
   (system_prompt_message_shape poolTwo "hi" "You are a helpful assistant." []).2 (by decide)⟩

/-
Helper lemmas shared by several claims.
-/

/-- With the cursor in range, every scan step succeeds, keeps the list
length, and leaves the cursor in range. -/
theorem selectScan_ok (now : Int) (num : Nat) :
    ∀ k cb, cb.api_states.length = num → cb.current_api_index < num →
      ∃ r cb', selectScan now num k cb = Except.ok (r, cb') ∧
        cb'.api_states.length = num ∧ cb'.current_api_index < num ∧
        cb'.cooldown_period = cb.cooldown_period ∧
        cb'.max_attempts_per_prompt = cb.max_attempts_per_prompt := by
  intro k
  induction k with
  | zero =>
    intro cb hlen hcur
    exact ⟨none, cb, rfl, hlen, hcur, rfl, rfl⟩
  | succ k ih =>
    intro cb hlen hcur
    have hidx : cb.current_api_index < cb.api_states.length := by omega
    have hnum : 0 < num := by omega
    have hmod : (cb.current_api_index + 1) % num < num := Nat.mod_lt _ hnum
    simp only [selectScan, List.getElem?_eq_getElem hidx]
    split_ifs with h1 h2
    · exact ⟨_, _, rfl, by simpa using hlen, hmod, rfl, rfl⟩
    · exact ⟨_, _, rfl, hlen, hmod, rfl, rfl⟩
    · obtain ⟨r, cb', heq, hl, hc, hcp, hmx⟩ :=
        ih { cb with current_api_index := (cb.current_api_index + 1) % num } hlen hmod
      exact ⟨r, cb', heq, hl, hc, hcp, hmx⟩

/-- A state with the same list length and cursor as one satisfying the
cursor invariant satisfies it too. -/
theorem cursorOk_of_eq (cb cb2 : Chatbot)
    (hlen : cb2.api_states.length = cb.api_states.length)
    (hcur : cb2.current_api_index = cb.current_api_index)
    (h : cursorOk cb) : cursorOk cb2 := by
  rcases h with h | h
  · left; omega
  · right
    have : cb2.api_states.length = 0 := by rw [hlen, h]; rfl
    exact List.length_eq_zero.mp this

/-- Under the cursor invariant, `_get_next_available_client` never raises,
keeps the list length, and re-establishes the invariant. -/
theorem getNextAvailableClient_ok (now : Int) (cb : Chatbot) (h : cursorOk cb) :
    ∃ r cb', getNextAvailableClient now cb = Except.ok (r, cb') ∧
      cb'.api_states.length = cb.api_states.length ∧ cursorOk cb' ∧
      cb'.cooldown_period = cb.cooldown_period ∧
      cb'.max_attempts_per_prompt = cb.max_attempts_per_prompt := by
  rcases h with hcur | hempty
  · obtain ⟨r, cb', heq, hlen, hc, hcp, hmx⟩ :=
      selectScan_ok now cb.api_states.length cb.api_states.length cb rfl hcur
    have hne : ¬ cb.api_states.length = 0 := by omega
    exact ⟨r, cb', by simp [getNextAvailableClient, hne, heq], hlen,
      Or.inl (by omega), hcp, hmx⟩
  · exact ⟨none, cb, by simp [getNextAvailableClient, hempty], rfl, Or.inr hempty, rfl, rfl⟩

/-- The generic-failure marker changes no list length. -/
theorem markUnavailableList_length (c : Nat) (t : Int) :
    ∀ L : List ApiState, (markUnavailableList c t L).length = L.length := by
  intro L
  induction L with
  | nil => rfl
  | cons a rest ih => by_cases h : a.client = c <;> simp [markUnavailableList, h, ih]

/-- The rate-limit marker changes no list length. -/
theorem rateLimitMark_length (c : Nat) (d t : Int) :
    ∀ L : List ApiState, (rateLimitMark c d t L).length = L.length := by
  intro L
  induction L with
  | nil => rfl
  | cons a rest ih => by_cases h : a.client = c <;> simp [rateLimitMark, h, ih]

/-- Marking a target unavailable preserves the cursor invariant. -/
theorem markUnavailable_cursorOk (c : Nat) (t : Int) (cb : Chatbot) (h : cursorOk cb) :
    cursorOk (markUnavailable c t cb) :=
  cursorOk_of_eq cb (markUnavailable c t cb) (markUnavailableList_length c t cb.api_states) rfl h

/-- Whenever the rate-limit handler returns normally, the result has the
same list length and the same cursor as its input. -/
theorem handleRateLimit_shape (c : Nat) (ra : Option String) (t : Int) (cb cb2 : Chatbot)
    (h : handleRateLimit c ra t cb = Except.ok cb2) :
    cb2.api_states.length = cb.api_states.length ∧
    cb2.current_api_index = cb.current_api_index ∧
    cb2.cooldown_period = cb.cooldown_period ∧
    cb2.max_attempts_per_prompt = cb.max_attempts_per_prompt := by
  unfold handleRateLimit at h
  by_cases hany : cb.api_states.any (fun a => a.client == c)
  · rw [if_pos hany] at h
    cases hd : computeDelay ra cb.cooldown_period with
    | error e => rw [hd] at h; cases h
    | ok d =>
      rw [hd] at h
      injection h with h'
      subst h'
      exact ⟨rateLimitMark_length c d t cb.api_states, rfl, rfl, rfl⟩
  · rw [if_neg hany] at h
    injection h with h'
    subst h'
    exact ⟨rfl, rfl, rfl, rfl⟩

/-- With a parseable (or absent) `retry-after` header, the rate-limit
handler returns normally. -/
theorem handleRateLimit_ok (c : Nat) (ra : Option String) (t : Int) (cb : Chatbot)
    (hra : retryAfterParses ra = true) :
    ∃ cb2, handleRateLimit c ra t cb = Except.ok cb2 := by
  have hcd : ∃ d, computeDelay ra cb.cooldown_period = Except.ok d := by
    cases ra with
    | none => exact ⟨cb.cooldown_period, rfl⟩
    | some s =>
      by_cases hs : s = ""
      · exact ⟨cb.cooldown_period, by simp [computeDelay, hs]⟩
      · cases hp : pyInt s with
        | ok v => exact ⟨v, by simp [computeDelay, hs, hp]⟩
        | error e =>
          exfalso
          simp only [retryAfterParses, hs, if_false, hp] at hra
          exact absurd hra (by decide)
  obtain ⟨d, hd⟩ := hcd
  by_cases hany : cb.api_states.any (fun a => a.client == c)
  · exact ⟨{ cb with api_states := rateLimitMark c d t cb.api_states },
      by simp [handleRateLimit, hany, hd]⟩
  · exact ⟨cb, by simp [handleRateLimit, hany]⟩

/-- Core lemma for the amended C1: with the cursor invariant at entry and a
trace that exercises neither the permanent-removal path nor an unparseable
`retry-after` header, the attempt loop always ends in a normal string. -/
theorem callLoop_benign_ok :
    ∀ n (envs : List AttemptEnv) (cb : Chatbot), cursorOk cb →
      (∀ e ∈ envs, e.outcome.benign = true) →
      ∃ s, (callLoop envs cb n).result = Except.ok s := by
  intro n
  induction n with
  | zero => intro envs cb _ _; exact ⟨failureSentinel, rfl⟩
  | succ n ih =>
    intro envs cb hc hb
    have hbe : (envHead envs).outcome.benign = true := by
      cases envs with
      | nil => rfl
      | cons e rest => exact hb e (List.mem_cons_self e rest)
    have hbt : ∀ e ∈ envs.tail, e.outcome.benign = true :=
      fun e he => hb e (List.mem_of_mem_tail he)
    obtain ⟨r, cb1, hsel, hlen, hc1, hcp, hmx⟩ :=
      getNextAvailableClient_ok (envHead envs).t_select cb hc
    cases r with
    | none => exact ⟨failureSentinel, by simp [callLoop, hsel]⟩
    | some sel =>
      cases ho : (envHead envs).outcome with
      | success content => exact ⟨pyStrip (pyStr content), by simp [callLoop, hsel, ho]⟩
      | rateLimit ra =>
        have hra : retryAfterParses ra = true := by
          rw [ho] at hbe; exact hbe
        obtain ⟨cb2, h2⟩ := handleRateLimit_ok sel.client ra (envHead envs).t_fail cb1 hra
        obtain ⟨hl2, hcur2, _, _⟩ := handleRateLimit_shape _ _ _ _ _ h2
        have hc2 : cursorOk cb2 := cursorOk_of_eq cb1 cb2 hl2 hcur2 hc1
        obtain ⟨s, hs⟩ := ih envs.tail cb2 hc2 hbt
        exact ⟨s, by simp [callLoop, hsel, ho, h2, hs]⟩
      | statusError =>
        rw [ho] at hbe
        exact absurd hbe (by simp [Outcome.benign])
      | apiError =>
        have hc2 : cursorOk (markUnavailable sel.client (envHead envs).t_fail cb1) :=
          markUnavailable_cursorOk _ _ _ hc1
        obtain ⟨s, hs⟩ := ih envs.tail _ hc2 hbt
        exact ⟨s, by simp [callLoop, hsel, ho, hs]⟩
      | unknownError =>
        have hc2 : cursorOk (markUnavailable sel.client (envHead envs).t_fail cb1) :=
          markUnavailable_cursorOk _ _ _ hc1
        obtain ⟨s, hs⟩ := ih envs.tail _ hc2 hbt
        exact ⟨s, by simp [callLoop, hsel, ho, hs]⟩

/-- C1 amended: `Chatbot.call` returns a normal string value and propagates
no exception provided the rotation cursor is in bounds (or the pool empty)
at entry, no attempt is classified as a permanent status error, and every
rate-limit `retry-after` header is absent, empty, or a parseable integer.
(The counterexample shows the unrestricted claim fails: a permanent removal
can push the cursor out of bounds and the `IndexError` of the next selection
escapes; likewise `int(retry_after)` can raise `ValueError` inside the
rate-limit handler for a non-integer header.) -/
theorem call_benign_no_exception (cb : Chatbot) (p sp : String) (envs : List AttemptEnv)
    (hc : cursorOk cb) (hb : ∀ e ∈ envs, e.outcome.benign = true) :
    ∃ s, (Chatbot.call cb p sp envs).result = Except.ok s := by
  obtain ⟨s, hs⟩ := callLoop_benign_ok cb.max_attempts_per_prompt envs cb hc hb
  exact ⟨s, by simpa [Chatbot.call] using hs⟩

/-- C1 witness: a benign trace (one rate-limited attempt with a numeric
retry-after, then a success) on the two-target pool. -/
theorem call_benign_no_exception_witness :
    ∃ s, (Chatbot.call poolTwo "hi" "You are a helpful assistant."
        [⟨0, Outcome.rateLimit (some "7"), 0⟩, ⟨1, Outcome.success (some "ok"), 1⟩]).result =
      Except.ok s :=
  call_benign_no_exception poolTwo "hi" "You are a helpful assistant."
    [⟨0, Outcome.rateLimit (some "7"), 0⟩, ⟨1, Outcome.success (some "ok"), 1⟩]
    (Or.inl (by decide)) (by decide)

/-- C2 amended: the cursor invariant (valid index or empty list) is
preserved by every pool operation except the permanent-failure removal:
by `_get_next_available_client` (which also never raises from an invariant
state), by the generic-failure marker, and by the rate-limit handler
whenever it returns.  The permanent removal is the exception: the
counterexample shows it can strand the cursor at the new list length. -/
theorem cursor_invariant_preserved_ops (cb : Chatbot) (now t t2 : Int) (c : Nat)
    (ra : Option String) (hc : cursorOk cb) :
    (∃ r cb', getNextAvailableClient now cb = Except.ok (r, cb') ∧ cursorOk cb') ∧
    cursorOk (markUnavailable c t cb) ∧
    (∀ cb2, handleRateLimit c ra t2 cb = Except.ok cb2 → cursorOk cb2) := by
  refine ⟨?_, markUnavailable_cursorOk c t cb hc, ?_⟩
  · obtain ⟨r, cb', heq, _, hc', _, _⟩ := getNextAvailableClient_ok now cb hc
    exact ⟨r, cb', heq, hc'⟩
  · intro cb2 h2
    obtain ⟨hl2, hcur2, _, _⟩ := handleRateLimit_shape _ _ _ _ _ h2
    exact cursorOk_of_eq cb cb2 hl2 hcur2 hc

/-- C2 witness: the preserved-operations statement at the two-target pool
with concrete times, client and header. -/
theorem cursor_invariant_preserved_ops_witness :
    (∃ r cb', getNextAvailableClient 0 poolTwo = Except.ok (r, cb') ∧ cursorOk cb') ∧
    cursorOk (markUnavailable 0 5 poolTwo) ∧
    (∀ cb2, handleRateLimit 0 (some "3") 6 poolTwo = Except.ok cb2 → cursorOk cb2) :=
  cursor_invariant_preserved_ops poolTwo 0 5 6 0 (some "3") (Or.inl (by decide))

/-- Lifting of the loop-bound invariant over one consumed attempt. -/
theorem callLoopStep_bound (n : Nat) (r : CallResult)
    (hinv : r.invocations ≤ n)
    (hbf : ∀ bk f, r.breakFuel = some (bk, f) → 1 ≤ f ∧ f ≤ n ∧
      (bk = BreakKind.noneAvailable → r.invocations = n - f) ∧
      (bk = BreakKind.poolEmptied → r.invocations = n - f + 1)) :
    r.invocations + 1 ≤ n + 1 ∧
    (∀ bk f, r.breakFuel = some (bk, f) → 1 ≤ f ∧ f ≤ n + 1 ∧
      (bk = BreakKind.noneAvailable → r.invocations + 1 = n + 1 - f) ∧
      (bk = BreakKind.poolEmptied → r.invocations + 1 = n + 1 - f + 1)) := by
  refine ⟨by omega, ?_⟩
  intro bk f h
  obtain ⟨h1, h2, h3, h4⟩ := hbf bk f h
  refine ⟨h1, by omega, ?_, ?_⟩
  · intro hbk; have := h3 hbk; omega
  · intro hbk; have := h4 hbk; omega

/-- Loop bound: with fuel `n`, the attempt loop performs at most `n`
transport invocations, and whichever `break` fires does so with recorded
fuel `f` between 1 and `n`, having performed `n - f` invocations before a
selection-returned-none break and `n - f + 1` invocations up to and
including the attempt whose removal emptied the pool. -/
theorem callLoop_bound :
    ∀ n (envs : List AttemptEnv) (cb : Chatbot),
      (callLoop envs cb n).invocations ≤ n ∧
      (∀ bk f, (callLoop envs cb n).breakFuel = some (bk, f) →
        1 ≤ f ∧ f ≤ n ∧
        (bk = BreakKind.noneAvailable → (callLoop envs cb n).invocations = n - f) ∧
        (bk = BreakKind.poolEmptied → (callLoop envs cb n).invocations = n - f + 1)) := by
  intro n
  induction n with
  | zero =>
    intro envs cb
    exact ⟨Nat.le_refl 0, by intro bk f h; cases h⟩
  | succ n ih =>
    intro envs cb
    simp only [callLoop]
    cases hsel : getNextAvailableClient (envHead envs).t_select cb with
    | error e =>
      simp only [hsel]
      exact ⟨Nat.zero_le _, by intro bk f h; cases h⟩
    | ok pr =>
      obtain ⟨r0, cb1⟩ := pr
      cases r0 with
      | none =>
        simp only [hsel]
        refine ⟨Nat.zero_le _, ?_⟩
        intro bk f h
        injection h with h'
        injection h' with hbk hf
        subst hbk; subst hf
        exact ⟨by omega, by omega, fun _ => by omega, fun hbk => absurd hbk (by simp)⟩
      | some sel =>
        cases ho : (envHead envs).outcome with
        | success content =>
          simp only [hsel, ho]
          exact ⟨by omega, by intro bk f h; cases h⟩
        | rateLimit ra =>
          simp only [hsel, ho]
          cases hrl : handleRateLimit sel.client ra (envHead envs).t_fail cb1 with
          | error e =>
            simp only
            exact ⟨by omega, by intro bk f h; cases h⟩
          | ok cb2 =>
            simp only
            exact callLoopStep_bound n _ (ih envs.tail cb2).1 (ih envs.tail cb2).2
        | statusError =>
          simp only [hsel, ho]
          by_cases hemp : (removeClient sel.client cb1).api_states = []
          · simp only [hemp, if_true]
            refine ⟨by omega, ?_⟩
            intro bk f h
            injection h with h'
            injection h' with hbk hf
            subst hbk; subst hf
            exact ⟨by omega, by omega, fun hbk => absurd hbk (by simp), fun _ => by omega⟩
          · simp only [hemp, if_false]
            exact callLoopStep_bound n _ (ih envs.tail _).1 (ih envs.tail _).2
        | apiError =>
          simp only [hsel, ho]
          exact callLoopStep_bound n _ (ih envs.tail _).1 (ih envs.tail _).2
        | unknownError =>
          simp only [hsel, ho]
          exact callLoopStep_bound n _ (ih envs.tail _).1 (ih envs.tail _).2

/-- C6: a `call` with attempt budget `K = max_attempts_per_prompt` performs
at most `K` transport invocations; it performs strictly fewer than `K`
whenever selection returns none on some iteration, and whenever a permanent
removal empties the pool before the budget is used up (that is, with at
least two units of loop fuel remaining when the break fires). -/
theorem attempt_budget_bound (cb : Chatbot) (p sp : String) (envs : List AttemptEnv) :
    (Chatbot.call cb p sp envs).invocations ≤ cb.max_attempts_per_prompt ∧
    (∀ f, (Chatbot.call cb p sp envs).breakFuel = some (BreakKind.noneAvailable, f) →
      (Chatbot.call cb p sp envs).invocations < cb.max_attempts_per_prompt) ∧
    (∀ f, (Chatbot.call cb p sp envs).breakFuel = some (BreakKind.poolEmptied, f) → 2 ≤ f →
      (Chatbot.call cb p sp envs).invocations < cb.max_attempts_per_prompt) := by
  obtain ⟨h1, h2⟩ := callLoop_bound cb.max_attempts_per_prompt envs cb
  have hres : (Chatbot.call cb p sp envs).invocations =
      (callLoop envs cb cb.max_attempts_per_prompt).invocations := rfl
  have hbf : (Chatbot.call cb p sp envs).breakFuel =
      (callLoop envs cb cb.max_attempts_per_prompt).breakFuel := rfl
  refine ⟨by rw [hres]; exact h1, ?_, ?_⟩
  · intro f h
    rw [hbf] at h
    obtain ⟨ha, hb, hc, _⟩ := h2 _ _ h
    have := hc rfl
    rw [hres]
    omega
  · intro f h h2f
    rw [hbf] at h
    obtain ⟨ha, hb, _, hd⟩ := h2 _ _ h
    have := hd rfl
    rw [hres]
    omega

/-- C6 witness: on a single-target pool whose only target gets rate limited
on the first attempt, the second iteration finds nothing selectable and the
loop breaks, having performed 1 < 5 transport invocations. -/
theorem attempt_budget_bound_witness :
    (Chatbot.call ⟨[tgt0], 0, 300, 5⟩ "p" ""
        [⟨0, Outcome.rateLimit (some "5"), 0⟩, ⟨1, Outcome.success none, 1⟩]).invocations < 5 :=
  (attempt_budget_bound ⟨[tgt0], 0, 300, 5⟩ "p" ""
      [⟨0, Outcome.rateLimit (some "5"), 0⟩, ⟨1, Outcome.success none, 1⟩]).2.1 4 rfl

/-- A scan step that lands on an available target returns it at once, with
only the cursor advanced. -/
theorem selectScan_available_step (now : Int) (num j k : Nat) (L : List ApiState)
    (cp : Int) (K : Nat) (hk : k < L.length) (hav : L[k].is_available = true) :
    selectScan now num (j + 1) ⟨L, k, cp, K⟩ =
      Except.ok (some ⟨L[k].client, L[k].model_name, L[k].name⟩, ⟨L, (k + 1) % num, cp, K⟩) := by
  have hnc : ¬ (L[k].is_available = false ∧
      now - L[k].last_failure_time > L[k].cooldown_until.getD cp) := by
    intro h
    rw [hav] at h
    exact absurd h.1 (by simp)
  simp only [selectScan, List.getElem?_eq_getElem hk]
  rw [if_neg hnc, if_pos hav]

/-- Selection from an all-available pool at cursor `k` returns the `k`-th
target and advances the cursor by one modulo the pool size, leaving the
target list untouched. -/
theorem getNext_available_step (now : Int) (k : Nat) (L : List ApiState) (cp : Int) (K : Nat)
    (hk : k < L.length) (hav : L[k].is_available = true) :
    getNextAvailableClient now ⟨L, k, cp, K⟩ =
      Except.ok (some ⟨L[k].client, L[k].model_name, L[k].name⟩,
        ⟨L, (k + 1) % L.length, cp, K⟩) := by
  have hne : ¬ L.length = 0 := by omega
  obtain ⟨m, hm⟩ : ∃ m, L.length = m + 1 := ⟨L.length - 1, by omega⟩
  simp only [getNextAvailableClient]
  rw [if_neg hne, hm]
  exact selectScan_available_step now (m + 1) m k L cp K hk hav

/-- Iterating selection over an all-available pool walks the list in order:
starting at cursor `k`, `j` calls return the window of `j` targets from
position `k`, as long as the window stays inside the list. -/
theorem selectSeq_all_available (now : Int) (cp : Int) (K : Nat) (L : List ApiState)
    (hav : ∀ a ∈ L, a.is_available = true) :
    ∀ j k, k + j ≤ L.length →
      (selectSeq now j ⟨L, k, cp, K⟩).1 =
        ((L.drop k).take j).map (fun a => some (Selected.mk a.client a.model_name a.name)) := by
  intro j
  induction j with
  | zero => intro k hk; simp [selectSeq]
  | succ j ih =>
    intro k hk
    have hkL : k < L.length := by omega
    have havk : L[k].is_available = true := hav _ (L.getElem_mem hkL)
    simp only [selectSeq]
    rw [getNext_available_step now k L cp K hkL havk]
    by_cases hk1 : k + 1 < L.length
    · have hmod : (k + 1) % L.length = k + 1 := Nat.mod_eq_of_lt hk1
      rw [hmod]
      simp only [ih (k + 1) (by omega)]
      rw [List.drop_eq_getElem_cons hkL, List.take_succ_cons, List.map_cons]
    · have hj : j = 0 := by omega
      subst hj
      have hdrop : L.drop (k + 1) = [] := List.drop_eq_nil_of_le (by omega)
      rw [List.drop_eq_getElem_cons hkL, hdrop]
      simp [selectSeq]

/-- C3: on a pool of `N ≥ 1` targets that are all available, `N` successive
calls of `_get_next_available_client` with no intervening failures return
each target exactly once, in construction order starting from cursor 0. -/
theorem rotation_fair_all_available (now : Int) (cp : Int) (K : Nat) (L : List ApiState)
    (hav : ∀ a ∈ L, a.is_available = true) (_hN : 1 ≤ L.length) :
    (selectSeq now L.length ⟨L, 0, cp, K⟩).1 =
      L.map (fun a => some (Selected.mk a.client a.model_name a.name)) := by
  have h := selectSeq_all_available now cp K L hav L.length 0 (by omega)
  simpa using h

/-- C3 witness: a three-target pool is returned as targets 0, 1, 2. -/
theorem rotation_fair_all_available_witness :
    (selectSeq 0 3 ⟨[tgt0, tgt1, tgt2], 0, 300, 5⟩).1 =
      [some ⟨0, some "m", "a"⟩, some ⟨1, some "m", "b"⟩, some ⟨2, some "m", "c"⟩] := by
  have h := rotation_fair_all_available 0 300 5 [tgt0, tgt1, tgt2] (by decide) (by decide)
  simpa [tgt0, tgt1, tgt2] using h

/-- Any target returned by the scan was, in the scanned state, either
available or strictly past its effective cooldown (the stored
`cooldown_until` if present, else the pool default). -/
theorem selectScan_sound (now : Int) (num : Nat) :
    ∀ k (cb : Chatbot) sel cb', selectScan now num k cb = Except.ok (some sel, cb') →
      ∃ a, a ∈ cb.api_states ∧ a.client = sel.client ∧ a.model_name = sel.model_name ∧
        a.name = sel.name ∧
        (a.is_available = true ∨
          now - a.last_failure_time > a.cooldown_until.getD cb.cooldown_period) := by
  intro k
  induction k with
  | zero =>
    intro cb sel cb' h
    simp [selectScan] at h
  | succ k ih =>
    intro cb sel cb' h
    cases hg : cb.api_states[cb.current_api_index]? with
    | none =>
      simp only [selectScan, hg] at h
      cases h
    | some a =>
      simp only [selectScan, hg] at h
      by_cases h1 : a.is_available = false ∧
          now - a.last_failure_time > a.cooldown_until.getD cb.cooldown_period
      · rw [if_pos h1] at h
        simp only [Except.ok.injEq, Prod.mk.injEq, Option.some.injEq] at h
        obtain ⟨hsel, -⟩ := h
        subst hsel
        exact ⟨a, List.getElem?_mem hg, rfl, rfl, rfl, Or.inr h1.2⟩
      · by_cases h2 : a.is_available
        · rw [if_neg h1, if_pos h2] at h
          simp only [Except.ok.injEq, Prod.mk.injEq, Option.some.injEq] at h
          obtain ⟨hsel, -⟩ := h
          subst hsel
          exact ⟨a, List.getElem?_mem hg, rfl, rfl, rfl, Or.inl h2⟩
        · rw [if_neg h1, if_neg h2] at h
          obtain ⟨b, hb, hc1, hc2, hc3, hc4⟩ := ih _ sel cb' h
          exact ⟨b, hb, hc1, hc2, hc3, hc4⟩

/-- Soundness at the `_get_next_available_client` level. -/
theorem getNext_sound (now : Int) (cb : Chatbot) (sel : Selected) (cb' : Chatbot)
    (h : getNextAvailableClient now cb = Except.ok (some sel, cb')) :
    ∃ a, a ∈ cb.api_states ∧ a.client = sel.client ∧ a.model_name = sel.model_name ∧
      a.name = sel.name ∧
      (a.is_available = true ∨
        now - a.last_failure_time > a.cooldown_until.getD cb.cooldown_period) := by
  by_cases hlen : cb.api_states.length = 0
  · exfalso
    simp only [getNextAvailableClient] at h
    rw [if_pos hlen] at h
    simp at h
  · simp only [getNextAvailableClient] at h
    rw [if_neg hlen] at h
    exact selectScan_sound now cb.api_states.length cb.api_states.length cb sel cb' h

/-- On a one-target pool whose target is marked unavailable with
last-failure time `T` and effective cooldown `D` (`cooldown_until` if
stored, else the pool default), selection succeeds exactly when
`now - T > D`. -/
theorem singleTarget_select_iff (a : ApiState) (cp : Int) (K : Nat) (now : Int)
    (hna : a.is_available = false) :
    (∃ sel cb', getNextAvailableClient now ⟨[a], 0, cp, K⟩ = Except.ok (some sel, cb')) ↔
      now - a.last_failure_time > a.cooldown_until.getD cp := by
  constructor
  · rintro ⟨sel, cb', h⟩
    obtain ⟨b, hb, -, -, -, hc⟩ := getNext_sound now ⟨[a], 0, cp, K⟩ sel cb' h
    have hba : b = a := by simpa using hb
    subst hba
    rcases hc with hc | hc
    · rw [hna] at hc; cases hc
    · simpa using hc
  · intro h
    refine ⟨⟨a.client, a.model_name, a.name⟩,
      ⟨[{ a with is_available := true, last_failure_time := 0 }], 0, cp, K⟩, ?_⟩
    simp [getNextAvailableClient, selectScan, hna, h]

/-- C7 amended: a target marked unavailable at time `T` with effective
cooldown duration `D` becomes selectable exactly once the elapsed time
strictly exceeds `D` (`now - T > D`, not `≥`): any selection that returns a
target returns one that was available or strictly past its cooldown, so an
unavailable target with `now - T ≤ D` is never returned; and on a
one-target pool selection succeeds iff `now - T > D`. -/
theorem selected_target_past_cooldown :
    (∀ (now : Int) (cb : Chatbot) sel cb',
        getNextAvailableClient now cb = Except.ok (some sel, cb') →
        ∃ a, a ∈ cb.api_states ∧ a.client = sel.client ∧ a.model_name = sel.model_name ∧
          a.name = sel.name ∧
          (a.is_available = true ∨
            now - a.last_failure_time > a.cooldown_until.getD cb.cooldown_period)) ∧
    (∀ (a : ApiState) (cp : Int) (K : Nat) (now : Int), a.is_available = false →
        ((∃ sel cb', getNextAvailableClient now ⟨[a], 0, cp, K⟩ = Except.ok (some sel, cb')) ↔
          now - a.last_failure_time > a.cooldown_until.getD cp)) :=
  ⟨fun now cb sel cb' h => getNext_sound now cb sel cb' h,
   fun a cp K now hna => singleTarget_select_iff a cp K now hna⟩

/-- C7 witness: the default-cooldown target of the counterexample becomes
selectable at time 301, one second past the strict threshold. -/
theorem selected_target_past_cooldown_witness :
    ∃ sel cb', getNextAvailableClient 301 ⟨[⟨false, 0, none, 0, some "m", "n"⟩], 0, 300, 5⟩ =
      Except.ok (some sel, cb') :=
  (selected_target_past_cooldown.2 ⟨false, 0, none, 0, some "m", "n"⟩ 300 5 301 rfl).mpr
    (by decide)

/-- C4 amended: a generic transient failure (APIError or unknown error) at
time `t` marks the target unavailable and stamps `last_failure_time := t`,
but leaves the `cooldown_until` key untouched; consequently the target
becomes selectable again once `now - t` strictly exceeds the stored
`cooldown_until` when an earlier rate-limit failure set one, and the
pool-wide default cooldown only otherwise. -/
theorem generic_failure_mark_semantics (a : ApiState) (cp t now : Int) (K : Nat) (i : Nat) :
    markUnavailable a.client t ⟨[a], i, cp, K⟩ =
      ⟨[{ a with is_available := false, last_failure_time := t }], i, cp, K⟩ ∧
    ((∃ sel cb', getNextAvailableClient now
          (markUnavailable a.client t ⟨[a], 0, cp, K⟩) = Except.ok (some sel, cb')) ↔
      now - t > a.cooldown_until.getD cp) := by
  have hmark : markUnavailableList a.client t [a] =
      [{ a with is_available := false, last_failure_time := t }] := by
    simp [markUnavailableList]
  constructor
  · simp [markUnavailable, hmark]
  · have hrw : markUnavailable a.client t ⟨[a], 0, cp, K⟩ =
        ⟨[{ a with is_available := false, last_failure_time := t }], 0, cp, K⟩ := by
      simp [markUnavailable, hmark]
    rw [hrw]
    have h := singleTarget_select_iff
      { a with is_available := false, last_failure_time := t } cp K now rfl
    simpa using h

/-- C4 witness: the amended semantics at the counterexample data — after
the generic failure at time 1000, the stale `cooldown_until = 10` governs
and the target is selectable at time 1011. -/
theorem generic_failure_mark_semantics_witness :
    markUnavailable 0 1000 ⟨[⟨true, 0, some 10, 0, some "m", "n"⟩], 0, 300, 5⟩ =
      ⟨[⟨false, 1000, some 10, 0, some "m", "n"⟩], 0, 300, 5⟩ ∧
    (∃ sel cb', getNextAvailableClient 1011
        (markUnavailable 0 1000 ⟨[⟨true, 0, some 10, 0, some "m", "n"⟩], 0, 300, 5⟩) =
      Except.ok (some sel, cb')) :=
  ⟨(generic_failure_mark_semantics ⟨true, 0, some 10, 0, some "m", "n"⟩ 300 1000 1011 5 0).1,
   (generic_failure_mark_semantics ⟨true, 0, some 10, 0, some "m", "n"⟩ 300 1000 1011 5 0).2.mpr
     (by decide)⟩

/-- C10: whenever the first attempt selects a client and the transport
succeeds with content `c`, `call` returns `str(c).strip()` — the content
coerced to a string and stripped; in particular a null content yields the
literal string "None" as a success value. -/
theorem success_returns_stripped_content (cb : Chatbot) (p sp : String)
    (envs : List AttemptEnv) (content : Option String) (sel : Selected) (cb1 : Chatbot)
    (hK : 1 ≤ cb.max_attempts_per_prompt)
    (ho : (envHead envs).outcome = Outcome.success content)
    (hs : getNextAvailableClient (envHead envs).t_select cb = Except.ok (some sel, cb1)) :
    (Chatbot.call cb p sp envs).result = Except.ok (pyStrip (pyStr content)) := by
  obtain ⟨n, hn⟩ : ∃ n, cb.max_attempts_per_prompt = n + 1 :=
    ⟨cb.max_attempts_per_prompt - 1, by omega⟩
  have hres : (Chatbot.call cb p sp envs).result =
      (callLoop envs cb cb.max_attempts_per_prompt).result := rfl
  rw [hres, hn]
  simp [callLoop, hs, ho]

/-- C10 witness: a null upstream content is returned as the string "None". -/
theorem success_returns_stripped_content_witness :
    (Chatbot.call ⟨[tgt0], 0, 300, 5⟩ "p" "" [⟨0, Outcome.success none, 0⟩]).result =
      Except.ok "None" := by
  have h := success_returns_stripped_content ⟨[tgt0], 0, 300, 5⟩ "p" ""
    [⟨0, Outcome.success none, 0⟩] none ⟨0, some "m", "a"⟩ ⟨[tgt0], 0, 300, 5⟩
    (by decide) rfl rfl
  rw [h]
  rfl
